import Mathlib

/-!
Verification of the derived-metrics and dashboard-aggregation layer of a
fitness-tracking web application.  The JavaScript source is shallowly
embedded: JS numbers are modelled as rationals (`ℚ`), `Math.round` as
`jsRound` (floor of x + 1/2, which is how JS rounds ties), timestamps as
integer milliseconds, and fallible computations as `Option`.
-/

namespace FitnessTracker

/-- JS `Math.round`: round to the nearest integer, ties toward positive
infinity, i.e. `⌊x + 1/2⌋` (written with the computable `Rat.floor`). -/
def jsRound (q : ℚ) : ℤ := (q + 1/2).floor

theorem jsRound_eq_floor (q : ℚ) : jsRound q = ⌊q + 1/2⌋ := by
  rw [jsRound, Rat.floor_def', Rat.floor_def]

/-- Source pattern `Math.round(x * 100) / 100`: round to 2 decimal places. -/
def round2 (q : ℚ) : ℚ := (jsRound (q * 100) : ℚ) / 100

/-- Source pattern `Math.round(x * 10) / 10` (also the numeric value of
`toFixed(1)` for non-negative inputs): round to 1 decimal place. -/
def round1 (q : ℚ) : ℚ := (jsRound (q * 10) : ℚ) / 10

theorem jsRound_mono {q r : ℚ} (h : q ≤ r) : jsRound q ≤ jsRound r := by
  rw [jsRound_eq_floor, jsRound_eq_floor]
  exact Int.floor_le_floor (by linarith)

theorem jsRound_nonneg {q : ℚ} (h : 0 ≤ q) : 0 ≤ jsRound q := by
  rw [jsRound_eq_floor]
  have : ((0 : ℤ) : ℚ) ≤ q + 1/2 := by push_cast; linarith
  exact Int.le_floor.mpr this

theorem round1_mono {q r : ℚ} (h : q ≤ r) : round1 q ≤ round1 r := by
  unfold round1
  have h : ((jsRound (q * 10) : ℤ) : ℚ) ≤ ((jsRound (r * 10) : ℤ) : ℚ) := by
    exact_mod_cast jsRound_mono (show q * 10 ≤ r * 10 by linarith)
  linarith

/-! ## Workout model (`models/Workout.js`)

`exerciseType` is a closed enum (the keys of `MET_VALUES`); the intensity
strings of the source (`'5 mph'`, `'leisurely'`, …) are modelled as the
constructors of `Intensity` (identical source strings share one
constructor). -/

inductive ExerciseType
  | running | cycling | swimming | yoga | weightlifting | walking
  | dancing | basketball | soccer | tennis | hiking
deriving DecidableEq

inductive Intensity
  | mph5 | mph6 | mph7 | mph8 | mph9 | mph10
  | leisurely | moderate | vigorous | racing
  | hatha | power | vinyasa
  | light
  | slow | brisk | very_brisk
  | fast
  | casual | competitive
  | singles | doubles
  | easy | strenuous
deriving DecidableEq

open ExerciseType Intensity in
/-- The module-level `MET_VALUES` table of `models/Workout.js`.
`MET_VALUES[exerciseType]?.[intensity]` is `none` exactly when the pair is
absent from the table. -/
def MET_VALUES : ExerciseType → Intensity → Option ℚ
  | running, mph5 => some (83/10)
  | running, mph6 => some (98/10)
  | running, mph7 => some 11
  | running, mph8 => some (118/10)
  | running, mph9 => some (128/10)
  | running, mph10 => some (145/10)
  | cycling, leisurely => some (35/10)
  | cycling, moderate => some (68/10)
  | cycling, vigorous => some 10
  | cycling, racing => some (158/10)
  | swimming, leisurely => some (58/10)
  | swimming, moderate => some 7
  | swimming, vigorous => some (98/10)
  | yoga, hatha => some (25/10)
  | yoga, power => some 4
  | yoga, vinyasa => some 3
  | weightlifting, light => some 3
  | weightlifting, moderate => some 5
  | weightlifting, vigorous => some 6
  | walking, slow => some 2
  | walking, moderate => some (35/10)
  | walking, brisk => some (43/10)
  | walking, very_brisk => some 5
  | dancing, slow => some 3
  | dancing, moderate => some (48/10)
  | dancing, fast => some (55/10)
  | basketball, casual => some 6
  | basketball, competitive => some 8
  | soccer, casual => some 7
  | soccer, competitive => some 10
  | tennis, singles => some 8
  | tennis, doubles => some 5
  | hiking, easy => some 4
  | hiking, moderate => some 6
  | hiking, strenuous => some 8
  | _, _ => none

/-- `workoutSchema.methods.calculateCaloriesBurned`: look up the MET value;
a missing pair rejects with the invalid-exercise error (modelled as `none`);
otherwise `caloriesBurned = Math.round(met * user.weight * duration/60)`. -/
def calculateCaloriesBurned (exerciseType : ExerciseType) (intensity : Intensity)
    (duration weight : ℚ) : Option ℤ :=
  (MET_VALUES exerciseType intensity).map fun metValue =>
    jsRound (metValue * weight * (duration / 60))

/-! ## User model (`models/User.js`) -/

inductive Gender
  | male | female | other
deriving DecidableEq

/-- `userSchema.methods.calculateBMR` (Harris-Benedict): the `male` branch
uses one constant set, every other gender falls into the `else` branch. -/
def User.calculateBMR (gender : Gender) (weight height age : ℚ) : ℤ :=
  if gender = Gender.male then
    jsRound (88362/1000 + (13397/1000) * weight + (4799/1000) * height - (5677/1000) * age)
  else
    jsRound (447593/1000 + (9247/1000) * weight + (3098/1000) * height - (4330/1000) * age)

/-! ## BMI (`models/Progress.js`, `models/User.js`) -/

/-- `progressSchema.methods.calculateBMI`: `weight / (height/100)^2`,
rounded to one decimal via `Math.round(bmi * 10) / 10`.  `weight` is the
progress record's weight, `userHeight` the populated user's height. -/
def Progress.calculateBMI (weight userHeight : ℚ) : ℚ :=
  round1 (weight / ((userHeight / 100) * (userHeight / 100)))

inductive BMICategory
  | Underweight | NormalWeight | Overweight | Obese
deriving DecidableEq

/-- The threshold chain of `progressSchema.methods.getBMICategory`
(18.5 = 37/2; the conjunctions mirror the source's `&&` conditions). -/
def getBMICategory (bmi : ℚ) : BMICategory :=
  if bmi < 37/2 then .Underweight
  else if 37/2 ≤ bmi ∧ bmi < 25 then .NormalWeight
  else if 25 ≤ bmi ∧ bmi < 30 then .Overweight
  else .Obese

/-- Position of a category in the Underweight → Obese order. -/
def categoryIndex : BMICategory → ℕ
  | .Underweight => 0
  | .NormalWeight => 1
  | .Overweight => 2
  | .Obese => 3

theorem getBMICategory_eq (x : ℚ) :
    getBMICategory x =
      if x < 37/2 then .Underweight
      else if x < 25 then .NormalWeight
      else if x < 30 then .Overweight
      else .Obese := by
  unfold getBMICategory
  by_cases h1 : x < 37/2
  · simp [h1]
  · by_cases h2 : x < 25
    · have hc : 37/2 ≤ x ∧ x < 25 := ⟨le_of_not_lt h1, h2⟩
      simp [h1, h2, hc]
    · by_cases h3 : x < 30
      · have hc2 : ¬(37/2 ≤ x ∧ x < 25) := fun hh => h2 hh.2
        have hc3 : 25 ≤ x ∧ x < 30 := ⟨le_of_not_lt h2, h3⟩
        simp [h1, h2, hc2, hc3, h3]
      · have hc2 : ¬(37/2 ≤ x ∧ x < 25) := fun hh => h2 hh.2
        have hc3 : ¬(25 ≤ x ∧ x < 30) := fun hh => h3 hh.2
        simp [h1, h2, hc2, hc3, h3]

theorem categoryIndex_mono {x y : ℚ} (h : x ≤ y) :
    categoryIndex (getBMICategory x) ≤ categoryIndex (getBMICategory y) := by
  rw [getBMICategory_eq, getBMICategory_eq]
  split_ifs <;> simp only [categoryIndex] <;> first | omega | (exfalso; linarith)

/-! ## Meal model (`models/Meal.js`) -/

/-- One entry of `mealSchema.foods`; the nutrient fields are per unit. -/
structure FoodItem where
  quantity : ℚ
  calories : ℚ
  protein : ℚ
  carbs : ℚ
  fat : ℚ
  fiber : ℚ
  sugar : ℚ
deriving DecidableEq

structure Totals where
  totalCalories : ℚ
  totalProtein : ℚ
  totalCarbs : ℚ
  totalFat : ℚ
  totalFiber : ℚ
  totalSugar : ℚ
deriving DecidableEq

/-- One step of the `forEach` accumulation of
`mealSchema.methods.calculateTotals`. -/
def totalsStep (t : Totals) (food : FoodItem) : Totals :=
  { totalCalories := t.totalCalories + food.calories * food.quantity
    totalProtein := t.totalProtein + food.protein * food.quantity
    totalCarbs := t.totalCarbs + food.carbs * food.quantity
    totalFat := t.totalFat + food.fat * food.quantity
    totalFiber := t.totalFiber + food.fiber * food.quantity
    totalSugar := t.totalSugar + food.sugar * food.quantity }

/-- `mealSchema.methods.calculateTotals`: reset the six totals to 0,
accumulate `food.field * food.quantity` over `foods`, then round each
total to 2 decimal places (`Math.round(x * 100) / 100`). -/
def calculateTotals (foods : List FoodItem) : Totals :=
  let t := foods.foldl totalsStep ⟨0, 0, 0, 0, 0, 0⟩
  ⟨round2 t.totalCalories, round2 t.totalProtein, round2 t.totalCarbs,
    round2 t.totalFat, round2 t.totalFiber, round2 t.totalSugar⟩

/-- The spec's `computeMealTotals`: for each nutrient, the rounded sum
`Σ item.field * item.quantity` over the list. -/
def computeMealTotals (foods : List FoodItem) : Totals :=
  ⟨round2 (foods.map fun f => f.calories * f.quantity).sum,
    round2 (foods.map fun f => f.protein * f.quantity).sum,
    round2 (foods.map fun f => f.carbs * f.quantity).sum,
    round2 (foods.map fun f => f.fat * f.quantity).sum,
    round2 (foods.map fun f => f.fiber * f.quantity).sum,
    round2 (foods.map fun f => f.sugar * f.quantity).sum⟩

theorem foldl_totalsStep (foods : List FoodItem) (z : Totals) :
    foods.foldl totalsStep z =
      ⟨z.totalCalories + (foods.map fun f => f.calories * f.quantity).sum,
        z.totalProtein + (foods.map fun f => f.protein * f.quantity).sum,
        z.totalCarbs + (foods.map fun f => f.carbs * f.quantity).sum,
        z.totalFat + (foods.map fun f => f.fat * f.quantity).sum,
        z.totalFiber + (foods.map fun f => f.fiber * f.quantity).sum,
        z.totalSugar + (foods.map fun f => f.sugar * f.quantity).sum⟩ := by
  induction foods generalizing z with
  | nil => cases z; simp
  | cons f fs ih =>
    simp only [List.foldl_cons, ih, totalsStep, List.map_cons, List.sum_cons,
      Totals.mk.injEq]
    refine ⟨by ring, by ring, by ring, by ring, by ring, by ring⟩

/-! ## Sleep model (`models/Sleep.js`) -/

/-- `sleepSchema.methods.calculateDuration`.  Instants are integer
milliseconds since the epoch; `endTime.setDate(endTime.getDate() + 1)` is
modelled as adding one day (86400000 ms), exact in a DST-free timezone.
The result is `Math.round(durationMs / (1000 * 60))`. -/
def calculateDuration (sleepStart sleepEnd : ℤ) : ℤ :=
  let endTime := if sleepEnd < sleepStart then sleepEnd + 86400000 else sleepEnd
  jsRound (((endTime - sleepStart : ℤ) : ℚ) / (1000 * 60))

inductive Quality
  | poor | fair | good | excellent
deriving DecidableEq

/-- `sleepSchema.methods.getQualityScore`: the fixed quality → score map
(the source's `|| 75` fallback is unreachable here because the schema's
`quality` enum is closed). -/
def getQualityScore : Quality → ℚ
  | .poor => 25
  | .fair => 50
  | .good => 75
  | .excellent => 100

/-! ## Dashboard records (`routes/dashboard.js`)

Only the fields the dashboard reads are modelled.  The date filters run in
the storage layer, so the summary functions receive the already-filtered
lists for the window in question. -/

structure WorkoutRecord where
  duration : ℚ
  caloriesBurned : ℚ
deriving DecidableEq

structure MealRecord where
  totalCalories : ℚ
  totalProtein : ℚ
  totalCarbs : ℚ
  totalFat : ℚ
deriving DecidableEq

structure SleepRecord where
  duration : ℚ
  quality : Quality
deriving DecidableEq

structure WorkoutDailySummary where
  count : ℕ
  totalDuration : ℚ
  totalCalories : ℚ
  averageDuration : ℚ
deriving DecidableEq

structure MealDailySummary where
  count : ℕ
  totalCalories : ℚ
  totalProtein : ℚ
  totalCarbs : ℚ
  totalFat : ℚ
deriving DecidableEq

structure SleepDailySummary where
  count : ℕ
  totalDuration : ℚ
  averageDuration : ℚ
  averageQuality : ℚ
deriving DecidableEq

structure DailySummary where
  workouts : WorkoutDailySummary
  meals : MealDailySummary
  sleep : SleepDailySummary
deriving DecidableEq

/-- The `workouts` part of `dailySummary` (`routes/dashboard.js`): counts,
`reduce`-sums, and a guarded `Math.round` average. -/
def workoutDailySummary (ws : List WorkoutRecord) : WorkoutDailySummary :=
  { count := ws.length
    totalDuration := ws.foldl (fun sum w => sum + w.duration) 0
    totalCalories := ws.foldl (fun sum w => sum + w.caloriesBurned) 0
    averageDuration :=
      if 0 < ws.length then
        (jsRound ((ws.foldl (fun sum w => sum + w.duration) 0) / ws.length) : ℚ)
      else 0 }

/-- The `meals` part of `dailySummary`. -/
def mealDailySummary (ms : List MealRecord) : MealDailySummary :=
  { count := ms.length
    totalCalories := ms.foldl (fun sum m => sum + m.totalCalories) 0
    totalProtein := ms.foldl (fun sum m => sum + m.totalProtein) 0
    totalCarbs := ms.foldl (fun sum m => sum + m.totalCarbs) 0
    totalFat := ms.foldl (fun sum m => sum + m.totalFat) 0 }

/-- The `sleep` part of `dailySummary`. -/
def sleepDailySummary (ss : List SleepRecord) : SleepDailySummary :=
  { count := ss.length
    totalDuration := ss.foldl (fun sum s => sum + s.duration) 0
    averageDuration :=
      if 0 < ss.length then
        (jsRound ((ss.foldl (fun sum s => sum + s.duration) 0) / ss.length) : ℚ)
      else 0
    averageQuality :=
      if 0 < ss.length then
        (jsRound ((ss.foldl (fun sum s => sum + getQualityScore s.quality) 0) / ss.length) : ℚ)
      else 0 }

/-- `dailySummary` of `GET /api/dashboard` over the day's three record
lists. -/
def dailySummary (ws : List WorkoutRecord) (ms : List MealRecord)
    (ss : List SleepRecord) : DailySummary :=
  ⟨workoutDailySummary ws, mealDailySummary ms, sleepDailySummary ss⟩

/-! ## `GET /api/dashboard/stats` aggregation pipelines

A `$group` over zero matched documents produces no row, modelled as
`none`; the route then falls back to an all-zero object via `|| {...}`.
`$avg` over `n ≥ 1` documents is the exact `sum / n`. -/

structure WorkoutStats where
  totalWorkouts : ℕ
  totalDuration : ℚ
  totalCalories : ℚ
  averageDuration : ℚ
  averageCalories : ℚ
deriving DecidableEq

structure MealStats where
  totalMeals : ℕ
  totalCalories : ℚ
  totalProtein : ℚ
  totalCarbs : ℚ
  totalFat : ℚ
  averageCalories : ℚ
deriving DecidableEq

structure SleepStats where
  totalSleepRecords : ℕ
  totalSleepTime : ℚ
  averageDuration : ℚ
  averageQuality : ℚ
deriving DecidableEq

/-- The workout `aggregate` of `GET /api/dashboard/stats`. -/
def workoutStats (ws : List WorkoutRecord) : Option WorkoutStats :=
  match ws with
  | [] => none
  | _ =>
    some
      { totalWorkouts := ws.length
        totalDuration := (ws.map (·.duration)).sum
        totalCalories := (ws.map (·.caloriesBurned)).sum
        averageDuration := (ws.map (·.duration)).sum / ws.length
        averageCalories := (ws.map (·.caloriesBurned)).sum / ws.length }

/-- The meal `aggregate` of `GET /api/dashboard/stats`. -/
def mealStats (ms : List MealRecord) : Option MealStats :=
  match ms with
  | [] => none
  | _ =>
    some
      { totalMeals := ms.length
        totalCalories := (ms.map (·.totalCalories)).sum
        totalProtein := (ms.map (·.totalProtein)).sum
        totalCarbs := (ms.map (·.totalCarbs)).sum
        totalFat := (ms.map (·.totalFat)).sum
        averageCalories := (ms.map (·.totalCalories)).sum / ms.length }

/-- The sleep `aggregate` of `GET /api/dashboard/stats`; the `$switch`
over `quality` is `getQualityScore`. -/
def sleepStats (ss : List SleepRecord) : Option SleepStats :=
  match ss with
  | [] => none
  | _ =>
    some
      { totalSleepRecords := ss.length
        totalSleepTime := (ss.map (·.duration)).sum
        averageDuration := (ss.map (·.duration)).sum / ss.length
        averageQuality := (ss.map (fun s => getQualityScore s.quality)).sum / ss.length }

/-- `workoutStats[0] || { ...zeros }` in the stats response. -/
def workoutStatsResult (ws : List WorkoutRecord) : WorkoutStats :=
  (workoutStats ws).getD ⟨0, 0, 0, 0, 0⟩

/-- `mealStats[0] || { ...zeros }` in the stats response. -/
def mealStatsResult (ms : List MealRecord) : MealStats :=
  (mealStats ms).getD ⟨0, 0, 0, 0, 0, 0⟩

/-- `sleepStats[0] || { ...zeros }` in the stats response. -/
def sleepStatsResult (ss : List SleepRecord) : SleepStats :=
  (sleepStats ss).getD ⟨0, 0, 0, 0⟩

/-! ## Progress records and the dashboard progress block -/

/-- A progress record as the dashboard reads it: a date (ms since epoch)
and a weight. -/
structure ProgressRecord where
  date : ℤ
  weight : ℚ
deriving DecidableEq

instance : Inhabited ProgressRecord := ⟨⟨0, 0⟩⟩

/-- The storage layer's `sort({ date: -1 })`: newest first. -/
def sortByDateDesc (l : List ProgressRecord) : List ProgressRecord :=
  l.insertionSort (fun a b => b.date ≤ a.date)

/-- The `recentProgress` fetch of `GET /api/dashboard`: last-30-days
records (already filtered upstream), sorted by date descending,
`limit(10)`. -/
def recentProgressFetch (l : List ProgressRecord) : List ProgressRecord :=
  (sortByDateDesc l).take 10

/-- `charts.weightTrend`: `recentProgress.map(p => ({date, weight}))`. -/
def weightTrend (recentProgress : List ProgressRecord) : List (ℤ × ℚ) :=
  recentProgress.map fun p => (p.date, p.weight)

structure ProgressSummary where
  currentWeight : ℚ
  weightChange : ℚ
deriving DecidableEq

/-- The `progressSummary` object of `GET /api/dashboard` (the parts the
claims are about): `recentProgress[0]` is the newest fetched record and
`recentProgress[length-1]` the oldest fetched record. -/
def progressSummary (recentProgress : List ProgressRecord) (userWeight : ℚ) :
    ProgressSummary :=
  { currentWeight :=
      if 0 < recentProgress.length then (recentProgress.getD 0 default).weight
      else userWeight
    weightChange :=
      if 1 < recentProgress.length then
        (recentProgress.getD 0 default).weight -
          (recentProgress.getD (recentProgress.length - 1) default).weight
      else 0 }

/-- The dashboard's `currentBMI`: stays `null` (`none`) when no recent
progress record exists, else `(recentProgress[0].weight /
heightInMeters^2).toFixed(1)` (modelled by its numeric value). -/
def currentBMI (recentProgress : List ProgressRecord) (userHeight : ℚ) :
    Option ℚ :=
  match recentProgress with
  | [] => none
  | p :: _ => some (round1 (p.weight / ((userHeight / 100) * (userHeight / 100))))

/-- The `goalProgress` expression of `GET /api/dashboard`.  A falsy
(`none` or zero) `targetWeight` short-circuits to 0.  JS division by zero
yields `Infinity`/`NaN`, modelled as `none`; a defined result `q` is
`some q`. -/
def goalProgress (targetWeight : Option ℚ) (userWeight currentWeight : ℚ) :
    Option ℚ :=
  match targetWeight with
  | none => some 0
  | some tw =>
    if tw = 0 then some 0
    else if userWeight - tw = 0 then none
    else some |((tw - currentWeight) / (userWeight - tw)) * 100|

/-! ## Claim theorems -/

/-- C1: for every workout whose (exerciseType, intensity) pair is in the
MET table, `caloriesBurned = round(MET * weight * (duration / 60))`; in
particular running at 6 mph for 30 min at 80 kg burns 392 kcal; and an
absent pair makes the computation fail (invalid-exercise error) instead of
producing a number. -/
theorem C1_caloriesBurned :
    (∀ (et : ExerciseType) (i : Intensity) (duration weight met : ℚ),
        MET_VALUES et i = some met →
        calculateCaloriesBurned et i duration weight =
          some (jsRound (met * weight * (duration / 60)))) ∧
    calculateCaloriesBurned ExerciseType.running Intensity.mph6 30 80 = some 392 ∧
    (∀ (et : ExerciseType) (i : Intensity) (duration weight : ℚ),
        MET_VALUES et i = none →
        calculateCaloriesBurned et i duration weight = none) := by
  refine ⟨?_, ?_, ?_⟩
  · intro et i duration weight met h
    rw [calculateCaloriesBurned, h, Option.map_some']
  · have hm : MET_VALUES ExerciseType.running Intensity.mph6 = some (98/10) := rfl
    rw [calculateCaloriesBurned, hm, Option.map_some', Option.some_inj]
    norm_num [jsRound_eq_floor]
  · intro et i duration weight h
    rw [calculateCaloriesBurned, h, Option.map_none']

/-- Witness for C1: a present pair (cycling, racing) follows the formula
and an absent pair (running, leisurely) fails. -/
theorem C1_caloriesBurned_witness :
    calculateCaloriesBurned ExerciseType.cycling Intensity.racing 60 70 =
      some (jsRound ((158/10) * 70 * (60 / 60))) ∧
    calculateCaloriesBurned ExerciseType.running Intensity.leisurely 45 90 = none :=
  ⟨C1_caloriesBurned.1 ExerciseType.cycling Intensity.racing 60 70 (158/10) rfl,
    C1_caloriesBurned.2.2 ExerciseType.running Intensity.leisurely 45 90 rfl⟩

/-- C2 counterexample: the claim says the male BMR at (80, 180, 30) is
1796, but the code's formula, `round(88.362 + 13.397*80 + 4.799*180 −
5.677*30) = round(1853.632)`, yields 1854. -/
theorem C2_bmr_cex :
    User.calculateBMR Gender.male 80 180 30 = 1854 ∧
    User.calculateBMR Gender.male 80 180 30 ≠ 1796 := by
  have h : User.calculateBMR Gender.male 80 180 30 = 1854 := by
    simp only [User.calculateBMR, if_pos rfl]
    norm_num [jsRound_eq_floor]
  exact ⟨h, by rw [h]; decide⟩

/-- C2 (amended): BMR is `round(88.362 + 13.397*w + 4.799*h − 5.677*a)`
for gender male and `round(447.593 + 9.247*w + 3.098*h − 4.330*a)` for
every non-male gender (female and other alike); the male example at
(80, 180, 30) yields 1854. -/
theorem C2_bmr :
    (∀ w h a : ℚ, User.calculateBMR Gender.male w h a =
        jsRound (88362/1000 + (13397/1000) * w + (4799/1000) * h - (5677/1000) * a)) ∧
    (∀ (g : Gender) (w h a : ℚ), g ≠ Gender.male →
        User.calculateBMR g w h a =
          jsRound (447593/1000 + (9247/1000) * w + (3098/1000) * h - (4330/1000) * a)) ∧
    (∀ w h a : ℚ,
        User.calculateBMR Gender.female w h a = User.calculateBMR Gender.other w h a) ∧
    User.calculateBMR Gender.male 80 180 30 = 1854 := by
  refine ⟨?_, ?_, ?_, ?_⟩
  · intro w h a
    simp [User.calculateBMR]
  · intro g w h a hg
    simp [User.calculateBMR, hg]
  · intro w h a
    simp [User.calculateBMR]
  · simp only [User.calculateBMR, if_pos rfl]
    norm_num [jsRound_eq_floor]

/-- Witness for C2: the non-male branch applied to gender `other`. -/
theorem C2_bmr_witness :
    User.calculateBMR Gender.other 60 165 40 =
      jsRound (447593/1000 + (9247/1000) * 60 + (3098/1000) * 165 - (4330/1000) * 40) :=
  C2_bmr.2.1 Gender.other 60 165 40 (by decide)

/-- C3: the stored meal totals are exactly the spec's per-field rounded
sums `round2 (Σ item.field * item.quantity)`; an empty foods list yields
all-zero totals; the two-item calorie example yields 250. -/
theorem C3_mealTotals :
    (∀ foods : List FoodItem, calculateTotals foods = computeMealTotals foods) ∧
    calculateTotals [] = ⟨0, 0, 0, 0, 0, 0⟩ ∧
    (calculateTotals [⟨2, 100, 0, 0, 0, 0, 0⟩, ⟨1, 50, 0, 0, 0, 0, 0⟩]).totalCalories
      = 250 := by
  refine ⟨?_, ?_, ?_⟩
  · intro foods
    simp [calculateTotals, computeMealTotals, foldl_totalsStep]
  · simp [calculateTotals, round2, jsRound_eq_floor]
    norm_num
  · simp only [calculateTotals, List.foldl_cons, List.foldl_nil, totalsStep]
    norm_num [round2, jsRound_eq_floor]

/-- Witness for C3: a concrete one-item meal agrees with the spec's
rounded per-field sums. -/
theorem C3_mealTotals_witness :
    calculateTotals [⟨2, 100, 5, 10, 3, 2, 1⟩] =
      computeMealTotals [⟨2, 100, 5, 10, 3, 2, 1⟩] :=
  C3_mealTotals.1 [⟨2, 100, 5, 10, 3, 2, 1⟩]

/-- C4 counterexample: the claim says that with the next-day shift the
duration is never negative for any input pair, but when sleepEnd precedes
sleepStart by more than 24 h a single one-day shift is not enough: with
sleepStart = 172800000 ms and sleepEnd = 0 ms the code computes −1440
minutes. -/
theorem C4_sleepDuration_cex :
    calculateDuration 172800000 0 = -1440 ∧ calculateDuration 172800000 0 < 0 := by
  have h : calculateDuration 172800000 0 = -1440 := by
    simp only [calculateDuration]
    norm_num [jsRound_eq_floor]
  exact ⟨h, by rw [h]; decide⟩

/-- C4 (amended): the derived duration is `round((sleepEnd − sleepStart)
minutes)` with sleepEnd shifted one day later whenever sleepEnd <
sleepStart; 23:00 → 06:00 gives 420 minutes; and the duration is
non-negative whenever sleepEnd is at most 24 h before sleepStart (for
larger gaps it is negative, as the counterexample shows). -/
theorem C4_sleepDuration :
    (∀ s e : ℤ, ¬ e < s →
        calculateDuration s e = jsRound (((e - s : ℤ) : ℚ) / 60000)) ∧
    (∀ s e : ℤ, e < s →
        calculateDuration s e = jsRound (((e + 86400000 - s : ℤ) : ℚ) / 60000)) ∧
    calculateDuration 82800000 21600000 = 420 ∧
    (∀ s e : ℤ, s - e ≤ 86400000 → 0 ≤ calculateDuration s e) := by
  refine ⟨?_, ?_, ?_, ?_⟩
  · intro s e h
    simp only [calculateDuration, if_neg h]
    norm_num
  · intro s e h
    simp only [calculateDuration, if_pos h]
    norm_num
  · simp only [calculateDuration]
    norm_num [jsRound_eq_floor]
  · intro s e h
    simp only [calculateDuration]
    split_ifs with hlt
    · apply jsRound_nonneg
      apply div_nonneg _ (by norm_num)
      have hz : (0 : ℤ) ≤ e + 86400000 - s := by linarith
      exact_mod_cast hz
    · apply jsRound_nonneg
      apply div_nonneg _ (by norm_num)
      have hz : (0 : ℤ) ≤ e - s := by linarith [not_lt.mp hlt]
      exact_mod_cast hz

/-- Witness for C4: the crossing-midnight example discharges both the
shifted-subtraction case and the at-most-24 h non-negativity case. -/
theorem C4_sleepDuration_witness :
    calculateDuration 82800000 21600000 =
      jsRound (((21600000 + 86400000 - 82800000 : ℤ) : ℚ) / 60000) ∧
    0 ≤ calculateDuration 82800000 21600000 :=
  ⟨C4_sleepDuration.2.1 82800000 21600000 (by decide),
    C4_sleepDuration.2.2.2 82800000 21600000 (by decide)⟩

/-- C5: with zero records of a kind in the window, both the dashboard's
`dailySummary` and the stats endpoint's zero-fallbacks return summaries
whose numeric fields are all present and zero; every average is the
guarded `round(sum / count)` when `count > 0` and the literal 0 when
`count = 0`, so no division by zero is ever taken. -/
theorem C5_zeroWindowSummary :
    dailySummary [] [] [] = ⟨⟨0, 0, 0, 0⟩, ⟨0, 0, 0, 0, 0⟩, ⟨0, 0, 0, 0⟩⟩ ∧
    workoutStatsResult [] = ⟨0, 0, 0, 0, 0⟩ ∧
    mealStatsResult [] = ⟨0, 0, 0, 0, 0, 0⟩ ∧
    sleepStatsResult [] = ⟨0, 0, 0, 0⟩ ∧
    (∀ ws : List WorkoutRecord, 0 < ws.length →
        (workoutDailySummary ws).averageDuration =
          (jsRound ((workoutDailySummary ws).totalDuration / ws.length) : ℚ)) ∧
    (∀ ws : List WorkoutRecord, ws.length = 0 →
        (workoutDailySummary ws).averageDuration = 0) ∧
    (∀ ss : List SleepRecord, 0 < ss.length →
        (sleepDailySummary ss).averageDuration =
          (jsRound ((sleepDailySummary ss).totalDuration / ss.length) : ℚ)) ∧
    (∀ ss : List SleepRecord, ss.length = 0 →
        (sleepDailySummary ss).averageQuality = 0) := by
  refine ⟨?_, rfl, rfl, rfl, ?_, ?_, ?_, ?_⟩
  · simp [dailySummary, workoutDailySummary, mealDailySummary, sleepDailySummary]
  · intro ws h
    simp [workoutDailySummary, h]
  · intro ws h
    simp [workoutDailySummary, h]
  · intro ss h
    simp [sleepDailySummary, h]
  · intro ss h
    simp [sleepDailySummary, h]

/-- Witness for C5: a one-element workout list takes the rounded
`sum / count` branch. -/
theorem C5_zeroWindowSummary_witness :
    (workoutDailySummary [⟨30, 200⟩]).averageDuration =
      (jsRound ((workoutDailySummary [⟨30, 200⟩]).totalDuration /
        ([⟨30, 200⟩] : List WorkoutRecord).length) : ℚ) :=
  C5_zeroWindowSummary.2.2.2.2.1 [⟨30, 200⟩] (by decide)

/-- C6: the claim (and spec §7) requires `goalProgress` to return 0 when
`startingWeight = targetWeight`, but the source divides by
`user.weight − targetWeight` with no zero-guard: at targetWeight = 70,
user weight = 70, current weight = 75 the division by zero makes the
result undefined (JS `Infinity`; `none` in this model), not 0. -/
theorem C6_goalProgress_divzero :
    goalProgress (some 70) 70 75 = none ∧
    goalProgress (some 70) 70 75 ≠ some 0 := by
  have h : goalProgress (some 70) 70 75 = none := by
    simp [goalProgress]
  exact ⟨h, by rw [h]; simp⟩

/-- C7 counterexample: with no progress record in the lookback window the
dashboard's `currentBMI` stays `null` — it is not computed from the
profile's stored weight (for profile weight 80 and height 180 that would
be BMI 24.7). -/
theorem C7_currentBMI_cex :
    currentBMI [] 180 = none ∧
    currentBMI [] 180 ≠ some (Progress.calculateBMI 80 180) :=
  ⟨rfl, by simp [currentBMI]⟩

/-- C7 (amended): `currentBMI` is computed from the most recent progress
record's weight when at least one record exists in the lookback window,
and otherwise is `null` (absent); the profile-based BMI is reported
separately, not through this field. -/
theorem C7_currentBMI :
    (∀ (p : ProgressRecord) (ps : List ProgressRecord) (h : ℚ),
        currentBMI (p :: ps) h = some (Progress.calculateBMI p.weight h)) ∧
    (∀ h : ℚ, currentBMI [] h = none) :=
  ⟨fun _ _ _ => rfl, fun _ => rfl⟩

/-- Witness for C7 (amended): one progress record of weight 80 at user
height 180 gives BMI 24.7 from the record's weight. -/
theorem C7_currentBMI_witness :
    currentBMI [⟨0, 80⟩] 180 = some (Progress.calculateBMI 80 180) :=
  C7_currentBMI.1 ⟨0, 80⟩ [] 180

/-- C8 counterexample: with two progress records dated 0 and 1 the
descending fetch renders `weightTrend` as [(1, 71), (0, 70)], which is not
in ascending date order. -/
theorem C8_weightTrend_cex :
    weightTrend (recentProgressFetch [⟨0, 70⟩, ⟨1, 71⟩]) = [(1, 71), (0, 70)] ∧
    ¬ List.Sorted (fun a b : ℤ × ℚ => a.1 ≤ b.1)
        (weightTrend (recentProgressFetch [⟨0, 70⟩, ⟨1, 71⟩])) := by
  have he : weightTrend (recentProgressFetch [⟨0, 70⟩, ⟨1, 71⟩]) =
      [((1 : ℤ), (71 : ℚ)), (0, 70)] := rfl
  refine ⟨he, ?_⟩
  rw [he]
  simp [List.sorted_cons]

/-- C8 (amended): `weightTrend` lists the (date, weight) pairs of the
progress records within the lookback window in descending (most recent
first) date order — the fetch sorts `date: -1`, and the route maps it
without re-sorting. -/
theorem C8_weightTrend_desc (l : List ProgressRecord) :
    List.Sorted (fun a b : ℤ × ℚ => b.1 ≤ a.1)
      (weightTrend (recentProgressFetch l)) := by
  have hs : List.Sorted (fun a b : ProgressRecord => b.date ≤ a.date)
      (sortByDateDesc l) := by
    unfold sortByDateDesc
    letI : IsTotal ProgressRecord (fun a b => b.date ≤ a.date) :=
      ⟨fun a b => le_total b.date a.date⟩
    letI : IsTrans ProgressRecord (fun a b => b.date ≤ a.date) :=
      ⟨fun _ _ _ hab hbc => le_trans hbc hab⟩
    exact List.sorted_insertionSort _ _
  have ht : List.Sorted (fun a b : ProgressRecord => b.date ≤ a.date)
      ((sortByDateDesc l).take 10) := hs.sublist (List.take_sublist _ _)
  unfold weightTrend recentProgressFetch
  exact List.pairwise_map.mpr ht

/-- Witness for C8 (amended): the two-record instance is descending. -/
theorem C8_weightTrend_desc_witness :
    List.Sorted (fun a b : ℤ × ℚ => b.1 ≤ a.1)
      (weightTrend (recentProgressFetch [⟨0, 70⟩, ⟨1, 71⟩])) :=
  C8_weightTrend_desc [⟨0, 70⟩, ⟨1, 71⟩]

/-- C9: for weights in [20, 300] and heights in [100, 250] the computed
BMI category is one of the four categories, the boundary BMI values 18.5,
25 and 30 classify into the upper category, and with height fixed the
category is monotone non-decreasing in weight. -/
theorem C9_bmiCategory_mono :
    (∀ w h : ℚ, 20 ≤ w → w ≤ 300 → 100 ≤ h → h ≤ 250 →
        (getBMICategory (Progress.calculateBMI w h) = BMICategory.Underweight ∨
          getBMICategory (Progress.calculateBMI w h) = BMICategory.NormalWeight ∨
          getBMICategory (Progress.calculateBMI w h) = BMICategory.Overweight ∨
          getBMICategory (Progress.calculateBMI w h) = BMICategory.Obese)) ∧
    getBMICategory (37/2) = BMICategory.NormalWeight ∧
    getBMICategory 25 = BMICategory.Overweight ∧
    getBMICategory 30 = BMICategory.Obese ∧
    (∀ w w' h : ℚ, 20 ≤ w → w' ≤ 300 → 100 ≤ h → h ≤ 250 → w ≤ w' →
        categoryIndex (getBMICategory (Progress.calculateBMI w h)) ≤
          categoryIndex (getBMICategory (Progress.calculateBMI w' h))) := by
  refine ⟨?_, ?_, ?_, ?_, ?_⟩
  · intro w h _ _ _ _
    cases hc : getBMICategory (Progress.calculateBMI w h) <;> simp
  · rw [getBMICategory_eq]; norm_num
  · rw [getBMICategory_eq]; norm_num
  · rw [getBMICategory_eq]; norm_num
  · intro w w' h _ _ hh _ hww
    apply categoryIndex_mono
    unfold Progress.calculateBMI
    apply round1_mono
    have hc : (0 : ℚ) ≤ (h / 100) * (h / 100) := by positivity
    exact div_le_div_of_nonneg_right hww hc

/-- Witness for C9: weight 70 vs 80 at height 175: both in range, the
category index is monotone and the value is one of the four categories. -/
theorem C9_bmiCategory_mono_witness :
    (getBMICategory (Progress.calculateBMI 70 175) = BMICategory.Underweight ∨
      getBMICategory (Progress.calculateBMI 70 175) = BMICategory.NormalWeight ∨
      getBMICategory (Progress.calculateBMI 70 175) = BMICategory.Overweight ∨
      getBMICategory (Progress.calculateBMI 70 175) = BMICategory.Obese) ∧
    categoryIndex (getBMICategory (Progress.calculateBMI 70 175)) ≤
      categoryIndex (getBMICategory (Progress.calculateBMI 80 175)) :=
  ⟨C9_bmiCategory_mono.1 70 175 (by decide) (by decide) (by decide) (by decide),
    C9_bmiCategory_mono.2.2.2.2 70 80 175 (by decide) (by decide) (by decide)
      (by decide) (by decide)⟩

/-- C10: the progress summary works on at most the 10 most recent records
of the 30-day window: with ≥ 11 records, `weightChange` is the newest
weight minus the weight of the 10th-newest record (index 9 of the sorted
fetch), not the earliest record of the whole window; with fewer than 2
records it is 0; `currentWeight` is the newest weight; and on an explicit
11-record window the limited and unlimited summaries genuinely differ. -/
theorem C10_progressSummary_limit :
    (∀ (l : List ProgressRecord) (w : ℚ), 11 ≤ l.length →
        (progressSummary (recentProgressFetch l) w).weightChange =
          ((sortByDateDesc l).getD 0 default).weight -
            ((sortByDateDesc l).getD 9 default).weight) ∧
    (∀ (l : List ProgressRecord) (w : ℚ), l.length ≤ 1 →
        (progressSummary (recentProgressFetch l) w).weightChange = 0) ∧
    (∀ (l : List ProgressRecord) (w : ℚ), 1 ≤ l.length →
        (progressSummary (recentProgressFetch l) w).currentWeight =
          ((sortByDateDesc l).getD 0 default).weight) ∧
    ((progressSummary (recentProgressFetch
        [⟨10, 80⟩, ⟨9, 79⟩, ⟨8, 78⟩, ⟨7, 77⟩, ⟨6, 76⟩, ⟨5, 75⟩,
          ⟨4, 74⟩, ⟨3, 73⟩, ⟨2, 72⟩, ⟨1, 71⟩, ⟨0, 70⟩]) 0).weightChange = 9 ∧
      (progressSummary (sortByDateDesc
        [⟨10, 80⟩, ⟨9, 79⟩, ⟨8, 78⟩, ⟨7, 77⟩, ⟨6, 76⟩, ⟨5, 75⟩,
          ⟨4, 74⟩, ⟨3, 73⟩, ⟨2, 72⟩, ⟨1, 71⟩, ⟨0, 70⟩]) 0).weightChange = 10) := by
  have hlen : ∀ l : List ProgressRecord, (sortByDateDesc l).length = l.length :=
    fun l => (List.perm_insertionSort _ l).length_eq
  refine ⟨?_, ?_, ?_, ?_, ?_⟩
  · intro l w hl
    have h10 : ((sortByDateDesc l).take 10).length = 10 := by
      rw [List.length_take, hlen]; omega
    simp only [progressSummary, recentProgressFetch, h10]
    rw [if_pos (by norm_num)]
    rw [List.getD_eq_getElem?_getD, List.getD_eq_getElem?_getD,
      List.getD_eq_getElem?_getD, List.getD_eq_getElem?_getD,
      List.getElem?_take_of_lt (by norm_num : (0:ℕ) < 10),
      List.getElem?_take_of_lt (by norm_num : (9:ℕ) < 10)]
  · intro l w hl
    have h1 : ((sortByDateDesc l).take 10).length ≤ 1 := by
      rw [List.length_take, hlen]; omega
    simp only [progressSummary, recentProgressFetch]
    rw [if_neg (by omega)]
  · intro l w hl
    have h0 : 0 < ((sortByDateDesc l).take 10).length := by
      rw [List.length_take, hlen]; omega
    simp only [progressSummary, recentProgressFetch]
    rw [if_pos h0, List.getD_eq_getElem?_getD, List.getD_eq_getElem?_getD,
      List.getElem?_take_of_lt (by norm_num : (0:ℕ) < 10)]
  · have h9 : (progressSummary (recentProgressFetch
        [⟨10, 80⟩, ⟨9, 79⟩, ⟨8, 78⟩, ⟨7, 77⟩, ⟨6, 76⟩, ⟨5, 75⟩,
          ⟨4, 74⟩, ⟨3, 73⟩, ⟨2, 72⟩, ⟨1, 71⟩, ⟨0, 70⟩]) 0).weightChange
        = 80 - 71 := rfl
    rw [h9]; norm_num
  · have h10 : (progressSummary (sortByDateDesc
        [⟨10, 80⟩, ⟨9, 79⟩, ⟨8, 78⟩, ⟨7, 77⟩, ⟨6, 76⟩, ⟨5, 75⟩,
          ⟨4, 74⟩, ⟨3, 73⟩, ⟨2, 72⟩, ⟨1, 71⟩, ⟨0, 70⟩]) 0).weightChange
        = 80 - 70 := rfl
    rw [h10]; norm_num

/-- Witness for C10: a 12-record window exercises the limit-10 branch,
an empty window the zero branch. -/
theorem C10_progressSummary_limit_witness :
    (progressSummary (recentProgressFetch
        [⟨11, 81⟩, ⟨10, 80⟩, ⟨9, 79⟩, ⟨8, 78⟩, ⟨7, 77⟩, ⟨6, 76⟩, ⟨5, 75⟩,
          ⟨4, 74⟩, ⟨3, 73⟩, ⟨2, 72⟩, ⟨1, 71⟩, ⟨0, 70⟩]) 5).weightChange =
      ((sortByDateDesc
        [⟨11, 81⟩, ⟨10, 80⟩, ⟨9, 79⟩, ⟨8, 78⟩, ⟨7, 77⟩, ⟨6, 76⟩, ⟨5, 75⟩,
          ⟨4, 74⟩, ⟨3, 73⟩, ⟨2, 72⟩, ⟨1, 71⟩, ⟨0, 70⟩]).getD 0 default).weight -
        ((sortByDateDesc
        [⟨11, 81⟩, ⟨10, 80⟩, ⟨9, 79⟩, ⟨8, 78⟩, ⟨7, 77⟩, ⟨6, 76⟩, ⟨5, 75⟩,
          ⟨4, 74⟩, ⟨3, 73⟩, ⟨2, 72⟩, ⟨1, 71⟩, ⟨0, 70⟩]).getD 9 default).weight ∧
    (progressSummary (recentProgressFetch []) 5).weightChange = 0 :=
  ⟨C10_progressSummary_limit.1
      [⟨11, 81⟩, ⟨10, 80⟩, ⟨9, 79⟩, ⟨8, 78⟩, ⟨7, 77⟩, ⟨6, 76⟩, ⟨5, 75⟩,
        ⟨4, 74⟩, ⟨3, 73⟩, ⟨2, 72⟩, ⟨1, 71⟩, ⟨0, 70⟩] 5 (by decide),
    C10_progressSummary_limit.2.1 [] 5 (by decide)⟩

end FitnessTracker
